import Mathlib

/-!
# MC-01 MIDI Clock — verification of the timing core

Shallow embedding of `src/midi_clock.ino` (the tick generator, tap-tempo
estimator, debounced inputs, transport state machine and tempo store) and
proofs of the stated properties.

Modelling conventions:

* `unsigned long` (32-bit on AVR) values — `millis()`/`micros()` timestamps,
  the tap expiry window — are `Nat`; unsigned wraparound subtraction `a - b`
  is written `(a + 2^32 - b) % 2^32`, which agrees with the machine whenever
  `a, b < 2^32`, and wraparound multiplication is `% 2^32`.
* `int` / `long` values (`tempo`, `bpm`, the timer period) are `Int`.  Every
  value these variables take in the properties proved here fits in a 16-bit
  `int`, so unbounded `Int` agrees with the machine arithmetic.  All divisions
  proved about have positive operands, where C truncated division and Lean's
  `Int` division coincide.
* C division by zero is undefined behaviour; the one fallible operation
  (`tapTempo`, whose second-tap branch divides by the tap interval) therefore
  returns `Option`, with `none` marking the division-by-zero fault.
* MIDI output (`MIDI.sendRealTime`, `MIDI.sendControlChange`) and the two
  indicator pins become an emitted event list / two `Bool` fields.
* Raw pin levels are `Nat`: `LOW = 0`, `HIGH = 1` (buttons are active-low).
-/

namespace MidiClock

/-- `#define TEMPO_MIN 40` -/
def TEMPO_MIN : Int := 40

/-- `#define TEMPO_MAX 300` -/
def TEMPO_MAX : Int := 300

/-- `#define PPQ 24` — ticks per quarter note. -/
def PPQ : Int := 24

/-- `#define DEBOUNCE_TIME 30` — debounce window in milliseconds. -/
def DEBOUNCE_TIME : Nat := 30

/-- `#define TAP_EXPIRE_FACTOR 2` -/
def TAP_EXPIRE_FACTOR : Nat := 2

/-- `#define TAP_EXPIRE_DEFAULT 1715000` — default tap expiry in micros. -/
def TAP_EXPIRE_DEFAULT : Nat := 1715000

/-- Modulus of `unsigned long` arithmetic (32-bit). -/
def ULONG_MOD : Nat := 2 ^ 32

/-- The MIDI messages the sketch emits. -/
inductive MidiEvent where
  | start
  | stop
  | clock
  | controlChange (number value channel : Nat)
  deriving DecidableEq, Repr

/-- The sketch's global mutable state (file-scope variables of
`midi_clock.ino`), plus the two indicator output pins and the period the
hardware timer is currently programmed with. -/
structure MachineState where
  /-- `bool started` — transport flag. -/
  started : Bool
  /-- `unsigned long lastTapDebounceTime` (millis). -/
  lastTapDebounceTime : Nat
  /-- `unsigned long lastStartDebounceTime` (millis). -/
  lastStartDebounceTime : Nat
  /-- `unsigned long lastTapTime` (micros); `0` doubles as "no tap history". -/
  lastTapTime : Nat
  /-- `unsigned long tapExpireTime` (micros). -/
  tapExpireTime : Nat
  /-- `byte lastTapState` — last raw level of the tap pin. -/
  lastTapState : Nat
  /-- `byte lastStartState` — last raw level of the start/stop pin. -/
  lastStartState : Nat
  /-- `int tempo` — beats per minute. -/
  tempo : Int
  /-- `byte currentTick` — tick counter inside the quarter note. -/
  currentTick : Nat
  /-- Level of `RUNNING_LED_PIN`. -/
  runningLed : Bool
  /-- Level of `TEMPO_LED_PIN`. -/
  tempoLed : Bool
  /-- Period (micros) the recurring timer is programmed with. -/
  timerPeriod : Int
  deriving DecidableEq, Repr

/-- `calcTempoMicros` (src lines 221–224):
`long tempoMicros = (60 * 1000000) / (tempo * PPQ);`
C `long` division truncates toward zero, hence `Int.tdiv`. -/
def calcTempoMicros (tempo : Int) : Int :=
  Int.tdiv (60 * 1000000) (tempo * PPQ)

/-- The global-variable initial values (src lines 69–79), with the two output
pins low after `setup` and the timer programmed from the initial tempo
(`Timer1.initialize(calcTempoMicros())`, src line 90.  The raw levels read in
`setup` are the pulled-up idle level `HIGH = 1`). -/
def initialState : MachineState where
  started := false
  lastTapDebounceTime := 0
  lastStartDebounceTime := 0
  lastTapTime := 0
  tapExpireTime := TAP_EXPIRE_DEFAULT
  lastTapState := 1
  lastStartState := 1
  tempo := 120
  currentTick := 0
  runningLed := false
  tempoLed := false
  timerPeriod := calcTempoMicros 120

/-- `tapTempo` (src lines 189–204).  First branch records a first tap; the
second branch derives a tempo from the interval since the recorded tap.
`timeDifference * TAP_EXPIRE_FACTOR` wraps at 2^32 like the `unsigned long`
it is.  When the interval is zero the source evaluates `60000000 / 0`, a C
division-by-zero fault, modelled as `none`. -/
def tapTempo (s : MachineState) (nowMicros : Nat) : Option MachineState :=
  if s.lastTapTime = 0 then
    some { s with lastTapTime := nowMicros, tapExpireTime := TAP_EXPIRE_DEFAULT }
  else
    let newTapTime := nowMicros
    let timeDifference := (newTapTime + ULONG_MOD - s.lastTapTime) % ULONG_MOD
    if timeDifference = 0 then
      none
    else
      let bpm : Int := ((60000000 / timeDifference : Nat) : Int)
      some { s with
              tapExpireTime := timeDifference * TAP_EXPIRE_FACTOR % ULONG_MOD
              tempo := bpm
              timerPeriod := calcTempoMicros bpm
              lastTapTime := newTapTime }

/-- `changeTempo` (src lines 206–219): add the offset, clamp into
`[TEMPO_MIN, TEMPO_MAX]`, reprogram the timer. -/
def changeTempo (offset : Int) (s : MachineState) : MachineState :=
  let t0 := s.tempo + offset
  let t1 := if t0 < TEMPO_MIN then TEMPO_MIN
            else if t0 > TEMPO_MAX then TEMPO_MAX
            else t0
  { s with tempo := t1, timerPeriod := calcTempoMicros t1 }

/-- `clockTick` (src lines 226–245), the timer interrupt handler: emit a MIDI
clock if started, drive the tempo LED from the counter, then increment the
`byte` counter (wrapping at 256) and fold it back to 0 at `PPQ = 24`. -/
def clockTick (s : MachineState) : MachineState × List MidiEvent :=
  let evs := if s.started then [MidiEvent.clock] else []
  let led1 := if s.currentTick = 0 then true else s.tempoLed
  let led2 := if s.currentTick = 4 then false else led1
  let c1 := (s.currentTick + 1) % 256
  let c2 := if c1 = 24 then 0 else c1
  ({ s with tempoLed := led2, currentTick := c2 }, evs)

/-- `doStartStopInput` (src lines 129–161): debounced transport toggle.  On a
raw level change with the debounce timer idle, record the level; if it is the
active level `LOW`, toggle the transport, emitting Start (and resetting the
tick counter) or Stop followed by all-notes-off (CC #123 value 0) on channels
1–16.  Finally release the debounce timer once `DEBOUNCE_TIME` has elapsed. -/
def doStartStopInput (s : MachineState) (newStartState nowMillis : Nat) :
    MachineState × List MidiEvent :=
  let (s1, evs) :=
    if newStartState ≠ s.lastStartState then
      if s.lastStartDebounceTime = 0 then
        let s' := { s with lastStartDebounceTime := nowMillis,
                           lastStartState := newStartState }
        if newStartState = 0 then
          if !s.started then
            ({ s' with started := true, runningLed := true, currentTick := 0 },
             [MidiEvent.start])
          else
            ({ s' with started := false, runningLed := false },
             MidiEvent.stop ::
               (List.range 16).map (fun i => MidiEvent.controlChange 123 0 (i + 1)))
        else (s', [])
      else (s, [])
    else (s, [])
  let s2 := if (nowMillis + ULONG_MOD - DEBOUNCE_TIME) % ULONG_MOD ≥ s1.lastStartDebounceTime
            then { s1 with lastStartDebounceTime := 0 } else s1
  (s2, evs)

/-- `doTapInput` (src lines 163–187): debounced tap handling.  On a raw level
change with the debounce timer idle, record the level and call `tapTempo` if
it is the active level `LOW`; with no level change, expire a stale tap
history; finally release the debounce timer once `DEBOUNCE_TIME` has
elapsed.  `Option` propagates the `tapTempo` division fault. -/
def doTapInput (s : MachineState) (newTapState nowMillis nowMicros : Nat) :
    Option MachineState :=
  let step1 : Option MachineState :=
    if newTapState ≠ s.lastTapState then
      if s.lastTapDebounceTime = 0 then
        let s' := { s with lastTapDebounceTime := nowMillis,
                           lastTapState := newTapState }
        if newTapState = 0 then tapTempo s' nowMicros else some s'
      else some s
    else
      if s.lastTapTime > 0 ∧
          (nowMicros + ULONG_MOD - s.tapExpireTime) % ULONG_MOD ≥ s.lastTapTime then
        some { s with lastTapTime := 0 }
      else some s
  step1.map fun s1 =>
    if (nowMillis + ULONG_MOD - DEBOUNCE_TIME) % ULONG_MOD ≥ s1.lastTapDebounceTime
    then { s1 with lastTapDebounceTime := 0 } else s1

/-- The tick generator iterated from power-on: `n` timer invocations of
`clockTick` starting at `initialState`. -/
def tickIter : Nat → MachineState
  | 0 => initialState
  | n + 1 => (clockTick (tickIter n)).1

/-- `n` timer invocations of `clockTick` starting at an arbitrary state. -/
def clockTicksFrom (s : MachineState) : Nat → MachineState
  | 0 => s
  | n + 1 => (clockTick (clockTicksFrom s n)).1

/-- A sequence of `doStartStopInput` polls, each given a raw level and a
`millis()` timestamp; collects every emitted MIDI event in order. -/
def runStartStopPolls (s : MachineState) :
    List (Nat × Nat) → MachineState × List MidiEvent
  | [] => (s, [])
  | (lvl, tMs) :: rest =>
      let (s1, e1) := doStartStopInput s lvl tMs
      let (s2, e2) := runStartStopPolls s1 rest
      (s2, e1 ++ e2)

/-- A sequence of `doTapInput` polls, each given a raw level, a `millis()`
and a `micros()` timestamp. -/
def runTapPolls (s : MachineState) :
    List (Nat × Nat × Nat) → Option MachineState
  | [] => some s
  | (lvl, tMs, tUs) :: rest =>
      (doTapInput s lvl tMs tUs).bind fun s1 => runTapPolls s1 rest

/-- Modelled from the spec: the period formula in §8,
`calc_period(t) = 60,000,000 / (t * 24)`, integer division. -/
def calc_period (t : Int) : Int := 60000000 / (t * 24)

/-- A state whose tap history holds a tap recorded at 1,000,000 µs;
the other fields are the power-on values. -/
def unclampedTapState : MachineState :=
  { initialState with lastTapTime := 1000000 }

/-- A state whose tap history holds a tap recorded at 500,000 µs. -/
def zeroDeltaTapState : MachineState :=
  { initialState with lastTapTime := 500000 }

/-- A state awaiting a first tap, with tempo 100 BPM. -/
def tapPairCexState : MachineState :=
  { initialState with tempo := 100 }

/-- The power-on state with the transport toggled to Running. -/
def runningState : MachineState :=
  { initialState with started := true, runningLed := true }

/-!  ## Properties  -/

/-- Unfolding `tapTempo` on an empty tap history (first-tap branch). -/
theorem tapTempo_first (s : MachineState) (now : Nat) (h : s.lastTapTime = 0) :
    tapTempo s now =
      some { s with lastTapTime := now, tapExpireTime := TAP_EXPIRE_DEFAULT } := by
  simp [tapTempo, h]

/-- Unfolding `tapTempo` on a recorded tap with a nonzero interval `d`
(second-tap branch). -/
theorem tapTempo_second (s : MachineState) (now : Nat) (h : s.lastTapTime ≠ 0)
    (d : Nat) (hd : (now + ULONG_MOD - s.lastTapTime) % ULONG_MOD = d)
    (hd0 : d ≠ 0) :
    tapTempo s now =
      some { s with
              tapExpireTime := d * TAP_EXPIRE_FACTOR % ULONG_MOD
              tempo := ((60000000 / d : Nat) : Int)
              timerPeriod := calcTempoMicros ((60000000 / d : Nat) : Int)
              lastTapTime := now } := by
  simp [tapTempo, h, hd, hd0]

/-- C1: for every tempo `t` with `TEMPO_MIN ≤ t ≤ TEMPO_MAX`, the period
computation `calcTempoMicros` returns exactly `60,000,000 / (t * 24)` under
integer division (stated against the spec formula `calc_period` and against
plain natural-number division). -/
theorem calcTempoMicros_matches_spec (t : Int)
    (h1 : TEMPO_MIN ≤ t) (h2 : t ≤ TEMPO_MAX) :
    calcTempoMicros t = calc_period t ∧
    calcTempoMicros t = ((60000000 / (t.toNat * 24) : Nat) : Int) := by
  have ht : (0 : Int) < t := by unfold TEMPO_MIN at h1; omega
  have htn : ((t.toNat : Int)) = t := Int.toNat_of_nonneg ht.le
  constructor
  · unfold calcTempoMicros calc_period PPQ
    rw [Int.tdiv_eq_ediv (by norm_num) (by positivity)]
    norm_num
  · have key : calcTempoMicros ((t.toNat : Int)) =
        ((60000000 / (t.toNat * 24) : Nat) : Int) := by
      unfold calcTempoMicros PPQ
      rw [show ((60 : Int) * 1000000) = ((60000000 : Nat) : Int) by norm_num,
        show (((t.toNat : Nat) : Int) * 24) = ((t.toNat * 24 : Nat) : Int) by
          push_cast; ring,
        ← Int.ofNat_tdiv]
    rwa [htn] at key

/-- Witness for C1 at `t = 120`. -/
theorem calcTempoMicros_matches_spec_witness :
    TEMPO_MIN ≤ (120 : Int) ∧ (120 : Int) ≤ TEMPO_MAX ∧
    (calcTempoMicros 120 = calc_period 120 ∧
     calcTempoMicros 120 = ((60000000 / ((120 : Int).toNat * 24) : Nat) : Int)) :=
  ⟨by decide, by decide, calcTempoMicros_matches_spec 120 (by decide) (by decide)⟩

/-- C2 (counterexample): the tap-derived tempo assignment does not respect the
`[TEMPO_MIN, TEMPO_MAX]` invariant.  A second tap 100,000 µs after the
recorded one sets tempo to 600 BPM, above `TEMPO_MAX = 300`. -/
theorem tapTempo_exceeds_max_cex :
    (tapTempo unclampedTapState 1100000).map MachineState.tempo = some 600 ∧
    ¬ ((600 : Int) ≤ TEMPO_MAX) := by
  exact ⟨rfl, by decide⟩

/-- C2 (amended): the step adjustment `changeTempo` always leaves tempo
inside `[TEMPO_MIN, TEMPO_MAX]`, whatever the prior tempo and offset; the
tap path is exempt from the invariant (see `tapTempo_exceeds_max_cex`). -/
theorem changeTempo_stays_in_range (s : MachineState) (o : Int) :
    TEMPO_MIN ≤ (changeTempo o s).tempo ∧ (changeTempo o s).tempo ≤ TEMPO_MAX := by
  simp only [changeTempo, TEMPO_MIN, TEMPO_MAX]
  split_ifs <;> omega

/-- C3: a second tap at a timestamp equal to the recorded tap timestamp drives
`tapTempo` into `60000000 / 0` — a C division-by-zero fault (`none` in the
model); the zero-length interval is not rejected. -/
theorem tapTempo_zero_delta_divzero :
    tapTempo zeroDeltaTapState 500000 = none := rfl

/-- C7 (counterexample): a tap pair at timestamps 0 and 500,000 µs does not
produce 120 BPM: recording a first tap at timestamp 0 leaves `lastTapTime`
at the idle sentinel 0, so the second tap is treated as a first tap — from
100 BPM the tempo stays 100 and the expiry window stays at
`TAP_EXPIRE_DEFAULT`, not `2 × Δ = 1,000,000`. -/
theorem tap_pair_timestamp_zero_cex :
    ((tapTempo tapPairCexState 0).bind fun s1 => tapTempo s1 500000).map
        (fun s2 => (s2.tempo, s2.tapExpireTime, s2.lastTapTime)) =
      some (100, TAP_EXPIRE_DEFAULT, 500000) ∧
    (100 : Int) ≠ 120 ∧ TAP_EXPIRE_DEFAULT ≠ 1000000 :=
  ⟨rfl, by decide, by decide⟩

/-- C7 (amended): for a tap pair at timestamps `n0` and `n0 + 500000` µs with
`n0 > 0` (a first tap at timestamp exactly 0 coincides with the idle
sentinel) and no `micros()` wraparound, starting from an idle estimator, the
second tap sets tempo to exactly 120 BPM, the expiry window to
`2 × Δ = 1,000,000` µs, and `lastTapTime` to the new timestamp. -/
theorem tap_pair_500ms (s : MachineState) (n0 : Nat) (h0 : s.lastTapTime = 0)
    (h1 : 0 < n0) (h2 : n0 + 500000 < ULONG_MOD) :
    ((tapTempo s n0).bind fun s1 => tapTempo s1 (n0 + 500000)).map
        (fun s2 => (s2.tempo, s2.tapExpireTime, s2.lastTapTime)) =
      some (120, 1000000, n0 + 500000) := by
  have hΔ : (n0 + 500000 + ULONG_MOD - n0) % ULONG_MOD = 500000 := by
    unfold ULONG_MOD; omega
  rw [tapTempo_first s n0 h0, Option.some_bind',
    tapTempo_second _ (n0 + 500000) h1.ne' 500000 hΔ (by decide)]
  simp [TAP_EXPIRE_FACTOR, ULONG_MOD]

/-- Witness for C7 (amended) at `n0 = 1` from the power-on state. -/
theorem tap_pair_500ms_witness :
    ((tapTempo initialState 1).bind fun s1 => tapTempo s1 (1 + 500000)).map
        (fun s2 => (s2.tempo, s2.tapExpireTime, s2.lastTapTime)) =
      some (120, 1000000, 1 + 500000) :=
  tap_pair_500ms initialState 1 rfl (by decide) (by decide)

/-- C9: `changeTempo` adds the offset and clamps into
`[TEMPO_MIN, TEMPO_MAX]`; `+1` then `-1` round-trips from every valid tempo
below the upper boundary, and at `TEMPO_MAX` the `+1` is absorbed. -/
theorem changeTempo_clamp_roundtrip (s : MachineState) (o : Int) :
    (changeTempo o s).tempo = max TEMPO_MIN (min TEMPO_MAX (s.tempo + o)) ∧
    (TEMPO_MIN ≤ s.tempo → s.tempo < TEMPO_MAX →
      (changeTempo (-1) (changeTempo 1 s)).tempo = s.tempo) ∧
    (s.tempo = TEMPO_MAX → (changeTempo 1 s).tempo = TEMPO_MAX) := by
  refine ⟨?_, fun hlo hhi => ?_, fun htop => ?_⟩ <;>
    · simp only [changeTempo, TEMPO_MIN, TEMPO_MAX] at *
      split_ifs <;> omega

/-- Witness for C9 at the power-on state (tempo 120) with offset 1. -/
theorem changeTempo_clamp_roundtrip_witness :
    (changeTempo (-1) (changeTempo 1 initialState)).tempo = initialState.tempo :=
  (changeTempo_clamp_roundtrip initialState 1).2.1 (by decide) (by decide)

/-- `clockTick` while stopped emits nothing and leaves the transport flag. -/
theorem clockTick_stopped (s : MachineState) (h : s.started = false) :
    (clockTick s).2 = [] ∧ (clockTick s).1.started = false := by
  simp [clockTick, h]

/-- `clockTick` advances the tick counter modulo `PPQ = 24` from every
in-range counter value. -/
theorem clockTick_counter (s : MachineState) (h : s.currentTick < 24) :
    (clockTick s).1.currentTick = (s.currentTick + 1) % 24 := by
  simp only [clockTick]
  split_ifs <;> omega

/-- Iterating `clockTick` from a stopped in-range state keeps the transport
stopped and the counter in range. -/
theorem clockTicksFrom_stopped (s : MachineState) (h : s.started = false)
    (hc : s.currentTick < 24) :
    ∀ n, (clockTicksFrom s n).started = false ∧
      (clockTicksFrom s n).currentTick < 24 := by
  intro n
  induction n with
  | zero => exact ⟨h, hc⟩
  | succ k ih =>
      refine ⟨?_, ?_⟩
      · show (clockTick (clockTicksFrom s k)).1.started = false
        simp [clockTick, ih.1]
      · show (clockTick (clockTicksFrom s k)).1.currentTick < 24
        rw [clockTick_counter _ ih.2]
        exact Nat.mod_lt _ (by norm_num)

/-- C4: toggling the transport from Stopped (raw press level `LOW = 0` on a
changed level with the debounce timer idle) emits exactly one Start message,
resets the tick counter to 0 — with no Clock emitted by the toggle — and
drives the running indicator high. -/
theorem start_toggle_spec (s : MachineState) (t : Nat)
    (hstate : s.lastStartState ≠ 0) (hdb : s.lastStartDebounceTime = 0)
    (hrun : s.started = false) :
    (doStartStopInput s 0 t).2 = [MidiEvent.start] ∧
    (doStartStopInput s 0 t).1.currentTick = 0 ∧
    (doStartStopInput s 0 t).1.runningLed = true ∧
    (doStartStopInput s 0 t).1.started = true := by
  simp only [doStartStopInput, Ne.symm hstate, hdb, hrun]
  split_ifs <;> simp_all

/-- C5: toggling the transport from Running emits exactly one Stop message
followed by exactly 16 all-notes-off messages (CC #123 value 0, channels 1
through 16) and clears the running indicator; afterwards every timer
invocation still advances the tick counter modulo 24 while emitting no
Clock message. -/
theorem stop_toggle_spec (s : MachineState) (t : Nat)
    (hstate : s.lastStartState ≠ 0) (hdb : s.lastStartDebounceTime = 0)
    (hrun : s.started = true) (htick : s.currentTick < 24) :
    (doStartStopInput s 0 t).2 =
      MidiEvent.stop ::
        (List.range 16).map (fun i => MidiEvent.controlChange 123 0 (i + 1)) ∧
    (doStartStopInput s 0 t).1.runningLed = false ∧
    (doStartStopInput s 0 t).1.started = false ∧
    ∀ n, (clockTick (clockTicksFrom (doStartStopInput s 0 t).1 n)).2 = [] ∧
      (clockTicksFrom (doStartStopInput s 0 t).1 (n + 1)).currentTick =
        ((clockTicksFrom (doStartStopInput s 0 t).1 n).currentTick + 1) % 24 := by
  have hpost : (doStartStopInput s 0 t).1.started = false ∧
      (doStartStopInput s 0 t).1.currentTick < 24 ∧
      (doStartStopInput s 0 t).1.runningLed = false ∧
      (doStartStopInput s 0 t).2 =
        MidiEvent.stop ::
          (List.range 16).map (fun i => MidiEvent.controlChange 123 0 (i + 1)) := by
    simp only [doStartStopInput, Ne.symm hstate, hdb, hrun]
    split_ifs <;> simp_all
  refine ⟨hpost.2.2.2, hpost.2.2.1, hpost.1, fun n => ?_⟩
  have hinv := clockTicksFrom_stopped _ hpost.1 hpost.2.1 n
  exact ⟨(clockTick_stopped _ hinv.1).1, clockTick_counter _ hinv.2⟩

/-- Witness for C4: a press at the power-on state, `millis() = 100`. -/
theorem start_toggle_spec_witness :
    (doStartStopInput initialState 0 100).2 = [MidiEvent.start] ∧
    (doStartStopInput initialState 0 100).1.currentTick = 0 ∧
    (doStartStopInput initialState 0 100).1.runningLed = true ∧
    (doStartStopInput initialState 0 100).1.started = true :=
  start_toggle_spec initialState 100 (by decide) rfl rfl

/-- Witness for C5: a press while running, `millis() = 100`, first timer
invocation after the stop. -/
theorem stop_toggle_spec_witness :
    (doStartStopInput runningState 0 100).2 =
      MidiEvent.stop ::
        (List.range 16).map (fun i => MidiEvent.controlChange 123 0 (i + 1)) ∧
    (doStartStopInput runningState 0 100).1.runningLed = false ∧
    (doStartStopInput runningState 0 100).1.started = false ∧
    ((clockTick (clockTicksFrom (doStartStopInput runningState 0 100).1 0)).2 = [] ∧
      (clockTicksFrom (doStartStopInput runningState 0 100).1 1).currentTick =
        ((clockTicksFrom (doStartStopInput runningState 0 100).1 0).currentTick + 1) % 24) := by
  have h := stop_toggle_spec runningState 100 (by decide) rfl rfl (by decide)
  exact ⟨h.1, h.2.1, h.2.2.1, h.2.2.2 0⟩

/-- The tick counter and tempo-LED trajectory from power-on: after `n`
invocations the counter is `n % 24`, and the LED is lit exactly when the
most recent invocation saw a counter value below 4 (dark before the first
invocation). -/
theorem tickIter_aux (n : Nat) :
    (tickIter n).currentTick = n % 24 ∧
    (tickIter n).tempoLed = decide (n ≠ 0 ∧ (n - 1) % 24 < 4) := by
  induction n with
  | zero => exact ⟨rfl, by decide⟩
  | succ k ih =>
      obtain ⟨ihc, ihl⟩ := ih
      constructor
      · show (clockTick (tickIter k)).1.currentTick = (k + 1) % 24
        simp only [clockTick, ihc]
        split_ifs <;> omega
      · show (clockTick (tickIter k)).1.tempoLed =
          decide (k + 1 ≠ 0 ∧ (k + 1 - 1) % 24 < 4)
        simp only [clockTick, ihc, ihl]
        rcases eq_or_ne (k % 24) 0 with h0 | h0
        · rw [if_neg (show ¬ k % 24 = 4 by omega), if_pos h0]
          have hb : k + 1 ≠ 0 ∧ (k + 1 - 1) % 24 < 4 := by omega
          simp [hb] <;> omega
        · rcases eq_or_ne (k % 24) 4 with h4 | h4
          · rw [if_pos h4]
            have hb : ¬ (k + 1 ≠ 0 ∧ (k + 1 - 1) % 24 < 4) := by omega
            simp [hb] <;> omega
          · rw [if_neg h4, if_neg h0]
            exact decide_eq_decide.mpr (by omega)

/-- C6: under repeated invocation of the tick handler from power-on, the tick
counter cycles `0,1,…,23,0,…` — it equals `n % 24` after `n` invocations and
stays in `[0, 24)` — and the tempo indicator is high exactly when the
invocation it just completed saw a counter value in `{0,1,2,3}`, low for
counter values 4 through 23. -/
theorem tick_counter_cycles (n : Nat) :
    (tickIter n).currentTick = n % 24 ∧
    (tickIter n).currentTick < 24 ∧
    (tickIter (n + 1)).tempoLed = decide (n % 24 < 4) := by
  refine ⟨(tickIter_aux n).1, ?_, ?_⟩
  · rw [(tickIter_aux n).1]
    exact Nat.mod_lt _ (by norm_num)
  · rw [(tickIter_aux (n + 1)).2, decide_eq_decide]
    omega

/-- C8: with a recorded tap (`lastTapTime ≠ 0`) and a poll at a time at least
the expiry window past the recorded tap, the idle poll (no raw level change)
clears the tap history, and a subsequent tap is treated as a first tap:
`tapTempo` on a cleared history records the new timestamp and resets the
expiry window to `TAP_EXPIRE_DEFAULT` without touching the tempo. -/
theorem tap_expiry_clears (s : MachineState) (nowMs nowUs : Nat)
    (h1 : s.lastTapTime ≠ 0) (h2 : s.lastTapTime ≤ nowUs) (h3 : nowUs < ULONG_MOD)
    (h4 : s.tapExpireTime ≤ nowUs - s.lastTapTime) :
    (doTapInput s s.lastTapState nowMs nowUs).map MachineState.lastTapTime =
      some 0 ∧
    ∀ s2 now2, s2.lastTapTime = 0 →
      tapTempo s2 now2 =
        some { s2 with lastTapTime := now2,
                       tapExpireTime := TAP_EXPIRE_DEFAULT } := by
  constructor
  · have hcond : (nowUs + ULONG_MOD - s.tapExpireTime) % ULONG_MOD ≥
        s.lastTapTime := by
      unfold ULONG_MOD at h3 ⊢
      omega
    simp only [doTapInput, ne_eq, not_true_eq_false, if_false, reduceIte,
      Nat.pos_of_ne_zero h1, hcond, and_self, if_true]
    simp [apply_ite MachineState.lastTapTime]
  · exact fun s2 now2 h => tapTempo_first s2 now2 h

/-- Witness for C8: a tap recorded at 1,000,000 µs with the default expiry
window, polled at 3,000,000 µs, then a fresh tap at 5,000,000 µs. -/
theorem tap_expiry_clears_witness :
    (doTapInput unclampedTapState unclampedTapState.lastTapState 500 3000000).map
        MachineState.lastTapTime = some 0 ∧
    tapTempo initialState 5000000 =
      some { initialState with lastTapTime := 5000000,
                               tapExpireTime := TAP_EXPIRE_DEFAULT } := by
  have h := tap_expiry_clears unclampedTapState 500 3000000 (by decide) (by decide)
    (by decide) (by decide)
  exact ⟨h.1, h.2 initialState 5000000 rfl⟩

/-- An accepted press on the transport poller from Stopped: raw active level
on a changed level with the debounce timer idle.  `DEBOUNCE_TIME ≤ t <
ULONG_MOD` keeps the freshly armed timer from being released in the same
poll. -/
theorem startStop_press_run (s : MachineState) (t : Nat)
    (hstate : s.lastStartState ≠ 0) (hdb : s.lastStartDebounceTime = 0)
    (hrun : s.started = false) (ht : DEBOUNCE_TIME ≤ t) (ht2 : t < ULONG_MOD) :
    doStartStopInput s 0 t =
      ({ s with lastStartDebounceTime := t, lastStartState := 0,
                started := true, runningLed := true, currentTick := 0 },
       [MidiEvent.start]) := by
  have hrel : ¬ (t + ULONG_MOD - DEBOUNCE_TIME) % ULONG_MOD ≥ t := by
    unfold ULONG_MOD DEBOUNCE_TIME at *
    omega
  simp [doStartStopInput, Ne.symm hstate, hdb, hrun, hrel]

/-- A transport poll whose raw level differs from the stored level while the
debounce timer is armed and the window has not elapsed: no effect. -/
theorem startStop_blocked (s : MachineState) (lvl t : Nat)
    (hne : lvl ≠ s.lastStartState) (hdb : s.lastStartDebounceTime ≠ 0)
    (hwin : (t + ULONG_MOD - DEBOUNCE_TIME) % ULONG_MOD <
      s.lastStartDebounceTime) :
    doStartStopInput s lvl t = (s, []) := by
  simp [doStartStopInput, hne, hdb, Nat.not_le.mpr hwin]

/-- A transport poll whose raw level matches the stored level while the
debounce window has not elapsed: no effect. -/
theorem startStop_same (s : MachineState) (lvl t : Nat)
    (heq : lvl = s.lastStartState)
    (hwin : (t + ULONG_MOD - DEBOUNCE_TIME) % ULONG_MOD <
      s.lastStartDebounceTime) :
    doStartStopInput s lvl t = (s, []) := by
  simp [doStartStopInput, heq, Nat.not_le.mpr hwin]

/-- An accepted press on the tap poller with an idle estimator: the first-tap
timestamp is recorded. -/
theorem tap_press_first (s : MachineState) (tMs tUs : Nat)
    (hstate : s.lastTapState ≠ 0) (hdb : s.lastTapDebounceTime = 0)
    (hidle : s.lastTapTime = 0) (ht : DEBOUNCE_TIME ≤ tMs)
    (ht2 : tMs < ULONG_MOD) :
    doTapInput s 0 tMs tUs =
      some { s with lastTapDebounceTime := tMs, lastTapState := 0,
                    lastTapTime := tUs, tapExpireTime := TAP_EXPIRE_DEFAULT } := by
  have hrel : ¬ (tMs + ULONG_MOD - DEBOUNCE_TIME) % ULONG_MOD ≥ tMs := by
    unfold ULONG_MOD DEBOUNCE_TIME at *
    omega
  simp [doTapInput, Ne.symm hstate, hdb, tapTempo, hidle, hrel]

/-- A tap poll whose raw level differs from the stored level while the
debounce timer is armed and the window has not elapsed: no effect. -/
theorem tap_blocked (s : MachineState) (lvl tMs tUs : Nat)
    (hne : lvl ≠ s.lastTapState) (hdb : s.lastTapDebounceTime ≠ 0)
    (hwin : (tMs + ULONG_MOD - DEBOUNCE_TIME) % ULONG_MOD <
      s.lastTapDebounceTime) :
    doTapInput s lvl tMs tUs = some s := by
  simp [doTapInput, hne, hdb, Nat.not_le.mpr hwin]

/-- A tap poll whose raw level matches the stored level, with no tap expiry
due and the debounce window not elapsed: no effect. -/
theorem tap_same_no_expire (s : MachineState) (lvl tMs tUs : Nat)
    (heq : lvl = s.lastTapState)
    (hexp : ¬ (s.lastTapTime > 0 ∧
      (tUs + ULONG_MOD - s.tapExpireTime) % ULONG_MOD ≥ s.lastTapTime))
    (hwin : (tMs + ULONG_MOD - DEBOUNCE_TIME) % ULONG_MOD <
      s.lastTapDebounceTime) :
    doTapInput s lvl tMs tUs = some s := by
  simp [doTapInput, heq, hexp, Nat.not_le.mpr hwin]

/-- Unfolding one transport poll of a poll sequence. -/
theorem runStartStopPolls_cons_eq (s st : MachineState) (lvl tMs : Nat)
    (evs : List MidiEvent) (rest : List (Nat × Nat))
    (h : doStartStopInput s lvl tMs = (st, evs)) :
    runStartStopPolls s ((lvl, tMs) :: rest) =
      ((runStartStopPolls st rest).1, evs ++ (runStartStopPolls st rest).2) := by
  simp [runStartStopPolls, h]

/-- A transport poll sequence in which every poll leaves the state unchanged
and emits nothing. -/
theorem runStartStopPolls_fixed (s : MachineState) (ps : List (Nat × Nat))
    (h : ∀ p ∈ ps, doStartStopInput s p.1 p.2 = (s, [])) :
    runStartStopPolls s ps = (s, []) := by
  induction ps with
  | nil => rfl
  | cons p rest ih =>
      obtain ⟨lvl, tMs⟩ := p
      have hhead : doStartStopInput s lvl tMs = (s, []) :=
        h (lvl, tMs) (List.mem_cons_self _ _)
      have htail : ∀ q ∈ rest, doStartStopInput s q.1 q.2 = (s, []) :=
        fun q hq => h q (List.mem_cons_of_mem _ hq)
      rw [runStartStopPolls_cons_eq s s lvl tMs [] rest hhead, ih htail]
      rfl

/-- Unfolding one tap poll of a poll sequence. -/
theorem runTapPolls_cons_eq (s st : MachineState) (lvl tMs tUs : Nat)
    (rest : List (Nat × Nat × Nat)) (h : doTapInput s lvl tMs tUs = some st) :
    runTapPolls s ((lvl, tMs, tUs) :: rest) = runTapPolls st rest := by
  simp [runTapPolls, h]

/-- A tap poll sequence in which every poll leaves the state unchanged. -/
theorem runTapPolls_fixed (s : MachineState) (ps : List (Nat × Nat × Nat))
    (h : ∀ p ∈ ps, doTapInput s p.1 p.2.1 p.2.2 = some s) :
    runTapPolls s ps = some s := by
  induction ps with
  | nil => rfl
  | cons p rest ih =>
      obtain ⟨lvl, tMs, tUs⟩ := p
      have hhead : doTapInput s lvl tMs tUs = some s :=
        h (lvl, tMs, tUs) (List.mem_cons_self _ _)
      have htail : ∀ q ∈ rest, doTapInput s q.1 q.2.1 q.2.2 = some s :=
        fun q hq => h q (List.mem_cons_of_mem _ hq)
      rw [runTapPolls_cons_eq s s lvl tMs tUs rest hhead, ih htail]

/-- The four chatter polls `1,0,1,0` that follow an accepted transport press
at `t1` all fall inside the debounce window and leave the state unchanged,
emitting nothing. -/
theorem runStartStopPolls_jitter (st1 : MachineState) (t1 t2 t3 t4 t5 : Nat)
    (hdb : st1.lastStartDebounceTime = t1) (hls : st1.lastStartState = 0)
    (h30 : DEBOUNCE_TIME ≤ t1) (h12 : t1 ≤ t2) (h23 : t2 ≤ t3) (h34 : t3 ≤ t4)
    (h45 : t4 ≤ t5) (hwin : t5 < t1 + DEBOUNCE_TIME) (hmax : t5 < ULONG_MOD) :
    runStartStopPolls st1 [(1, t2), (0, t3), (1, t4), (0, t5)] = (st1, []) := by
  apply runStartStopPolls_fixed
  intro p hp
  simp only [List.mem_cons, List.not_mem_nil, or_false] at hp
  rcases hp with rfl | rfl | rfl | rfl
  · exact startStop_blocked st1 1 t2 (by rw [hls]; omega)
      (by rw [hdb]; unfold DEBOUNCE_TIME at h30; omega)
      (by rw [hdb]; unfold ULONG_MOD DEBOUNCE_TIME at *; omega)
  · exact startStop_same st1 0 t3 hls.symm
      (by rw [hdb]; unfold ULONG_MOD DEBOUNCE_TIME at *; omega)
  · exact startStop_blocked st1 1 t4 (by rw [hls]; omega)
      (by rw [hdb]; unfold DEBOUNCE_TIME at h30; omega)
      (by rw [hdb]; unfold ULONG_MOD DEBOUNCE_TIME at *; omega)
  · exact startStop_same st1 0 t5 hls.symm
      (by rw [hdb]; unfold ULONG_MOD DEBOUNCE_TIME at *; omega)

/-- The four chatter polls `1,0,1,0` that follow an accepted first tap at
`t1`/`m1` all fall inside the debounce window, none expires the fresh tap
history, and the state is unchanged. -/
theorem runTapPolls_jitter (stT : MachineState) (t1 t2 t3 t4 t5 : Nat)
    (m1 m2 m3 m4 m5 : Nat)
    (hdb : stT.lastTapDebounceTime = t1) (hls : stT.lastTapState = 0)
    (hlt : stT.lastTapTime = m1) (hex : stT.tapExpireTime = TAP_EXPIRE_DEFAULT)
    (h30 : DEBOUNCE_TIME ≤ t1) (h12 : t1 ≤ t2) (h23 : t2 ≤ t3) (h34 : t3 ≤ t4)
    (h45 : t4 ≤ t5) (hwin : t5 < t1 + DEBOUNCE_TIME) (hmax : t5 < ULONG_MOD)
    (hm0 : TAP_EXPIRE_DEFAULT ≤ m1) (hm13 : m1 ≤ m3) (hm35 : m3 ≤ m5)
    (hmwin : m5 < m1 + TAP_EXPIRE_DEFAULT) (hmmax : m5 < ULONG_MOD) :
    runTapPolls stT [(1, t2, m2), (0, t3, m3), (1, t4, m4), (0, t5, m5)] =
      some stT := by
  apply runTapPolls_fixed
  intro p hp
  simp only [List.mem_cons, List.not_mem_nil, or_false] at hp
  rcases hp with rfl | rfl | rfl | rfl
  · exact tap_blocked stT 1 t2 m2 (by rw [hls]; omega)
      (by rw [hdb]; unfold DEBOUNCE_TIME at h30; omega)
      (by rw [hdb]; unfold ULONG_MOD DEBOUNCE_TIME at *; omega)
  · exact tap_same_no_expire stT 0 t3 m3 hls.symm
      (by rw [hlt, hex]; unfold ULONG_MOD TAP_EXPIRE_DEFAULT at *; omega)
      (by rw [hdb]; unfold ULONG_MOD DEBOUNCE_TIME at *; omega)
  · exact tap_blocked stT 1 t4 m4 (by rw [hls]; omega)
      (by rw [hdb]; unfold DEBOUNCE_TIME at h30; omega)
      (by rw [hdb]; unfold ULONG_MOD DEBOUNCE_TIME at *; omega)
  · exact tap_same_no_expire stT 0 t5 m5 hls.symm
      (by rw [hlt, hex]; unfold ULONG_MOD TAP_EXPIRE_DEFAULT at *; omega)
      (by rw [hdb]; unfold ULONG_MOD DEBOUNCE_TIME at *; omega)

/-- C10: a raw level that jitters `0,1,0,1,0` within a single
`DEBOUNCE_TIME` window produces exactly one press event, the one for the
first observed active-level sample.  On the transport poller the five polls
emit exactly one Start; on the tap poller they record exactly the first
sample's timestamp as the single accepted tap, leaving the tempo untouched.
In both cases the debounce timer stays armed at `t1` through the window, so
no further press can be accepted before it is reset. -/
theorem debounce_single_press (s : MachineState)
    (t1 t2 t3 t4 t5 m1 m2 m3 m4 m5 : Nat)
    (hss : s.lastStartState ≠ 0) (hsdb : s.lastStartDebounceTime = 0)
    (hrun : s.started = false)
    (hts : s.lastTapState ≠ 0) (htdb : s.lastTapDebounceTime = 0)
    (hidle : s.lastTapTime = 0)
    (h30 : DEBOUNCE_TIME ≤ t1) (h12 : t1 ≤ t2) (h23 : t2 ≤ t3) (h34 : t3 ≤ t4)
    (h45 : t4 ≤ t5) (hwin : t5 < t1 + DEBOUNCE_TIME) (hmax : t5 < ULONG_MOD)
    (hm0 : TAP_EXPIRE_DEFAULT ≤ m1) (hm12 : m1 ≤ m2) (hm23 : m2 ≤ m3)
    (hm34 : m3 ≤ m4) (hm45 : m4 ≤ m5) (hmwin : m5 < m1 + TAP_EXPIRE_DEFAULT)
    (hmmax : m5 < ULONG_MOD) :
    runStartStopPolls s [(0, t1), (1, t2), (0, t3), (1, t4), (0, t5)] =
      ({ s with lastStartDebounceTime := t1, lastStartState := 0,
                started := true, runningLed := true, currentTick := 0 },
       [MidiEvent.start]) ∧
    runTapPolls s
        [(0, t1, m1), (1, t2, m2), (0, t3, m3), (1, t4, m4), (0, t5, m5)] =
      some { s with lastTapDebounceTime := t1, lastTapState := 0,
                    lastTapTime := m1, tapExpireTime := TAP_EXPIRE_DEFAULT } := by
  constructor
  · rw [runStartStopPolls_cons_eq _ _ _ _ _ _
        (startStop_press_run s t1 hss hsdb hrun h30 (by omega)),
      runStartStopPolls_jitter _ t1 t2 t3 t4 t5 rfl rfl h30 h12 h23 h34 h45
        hwin hmax]
    rfl
  · rw [runTapPolls_cons_eq _ _ _ _ _ _
        (tap_press_first s t1 m1 hts htdb hidle h30 (by omega)),
      runTapPolls_jitter _ t1 t2 t3 t4 t5 m1 m2 m3 m4 m5 rfl rfl rfl rfl h30
        h12 h23 h34 h45 hwin hmax hm0 (by omega) (by omega) hmwin hmmax]

/-- Witness for C10: jitter samples at `millis()` 30, 35, 40, 45, 50 and
`micros()` 1715000 … 1715400 from the power-on state. -/
theorem debounce_single_press_witness :
    runStartStopPolls initialState [(0, 30), (1, 35), (0, 40), (1, 45), (0, 50)] =
      ({ initialState with
          lastStartDebounceTime := 30
          lastStartState := 0
          started := true
          runningLed := true
          currentTick := 0 },
       [MidiEvent.start]) ∧
    runTapPolls initialState
        [(0, 30, 1715000), (1, 35, 1715100), (0, 40, 1715200), (1, 45, 1715300),
         (0, 50, 1715400)] =
      some { initialState with
              lastTapDebounceTime := 30
              lastTapState := 0
              lastTapTime := 1715000
              tapExpireTime := TAP_EXPIRE_DEFAULT } :=
  debounce_single_press initialState 30 35 40 45 50
    1715000 1715100 1715200 1715300 1715400
    (by decide) rfl rfl (by decide) rfl rfl
    (by decide) (by decide) (by decide) (by decide) (by decide) (by decide)
    (by decide) (by decide) (by decide) (by decide) (by decide) (by decide)
    (by decide) (by decide)

end MidiClock
